import Mathlib

/-
Verification development for the PulseRadar scoring and reputation engine.

The TypeScript source is shallowly embedded: JavaScript numbers are modelled
as exact rationals (ℚ), timestamps (always produced by Math.floor) as
integers (ℤ), SQL rows as structures, and the D1 database state touched by
the handlers as explicit lists.  JavaScript falsiness of a string is
"equal to the empty string", of a number is "equal to 0", and of an
optional value is "absent or falsy".
-/

namespace PulseRadar

/-- Math.round in JavaScript rounds half away from zero toward positive
infinity: round x = floor (x + 1/2). -/
def jsRound (q : ℚ) : ℤ := ⌊q + 1/2⌋

/-- The idiom Math.round (x * 10) / 10 used throughout the trust-score
calculator to keep one decimal. -/
def round1 (q : ℚ) : ℚ := (jsRound (q * 10) : ℚ) / 10

/-- One row of endpoint_tests as read back by getEndpointTests.
response_time_ms is NULL or 0 exactly when the stored value was falsy, so a
single rational with 0 for the falsy case is a faithful model; the
response_sample column is absent (none) or a string. -/
structure EndpointTest where
  endpoint_id : ℕ
  test_timestamp : ℤ
  status_code : ℕ
  response_time_ms : ℚ
  is_successful : Bool
  response_sample : Option String
deriving DecidableEq

/-- JavaScript truthiness of an optional string: present and non-empty. -/
def truthyStr : Option String → Bool
  | none => false
  | some s => !(s == "")

/-- calculateUptime from lib/testing.ts: percentage of successful tests. -/
def calculateUptime (tests : List EndpointTest) : ℚ :=
  if tests.length = 0 then 0
  else
    let successful := (tests.filter (fun t => t.is_successful)).length
    ((successful : ℚ) / (tests.length : ℚ)) * 100

/-- calculateAvgResponseTime from lib/testing.ts: mean latency over tests
that are successful and have a truthy response_time_ms. -/
def calculateAvgResponseTime (tests : List EndpointTest) : ℚ :=
  let successfulTests := tests.filter
    (fun t => t.is_successful && decide (t.response_time_ms ≠ 0))
  if successfulTests.length = 0 then 0
  else (successfulTests.map (fun t => t.response_time_ms)).sum /
    (successfulTests.length : ℚ)

/-- calculateUptimeScore from lib/trust-score.ts. -/
def calculateUptimeScore (uptimePercent : ℚ) : ℚ :=
  if uptimePercent ≥ 99 then 95 + (uptimePercent - 99) * 5
  else if uptimePercent ≥ 95 then 85 + ((uptimePercent - 95) / 4) * 10
  else if uptimePercent ≥ 90 then 70 + ((uptimePercent - 90) / 5) * 15
  else if uptimePercent ≥ 80 then 50 + ((uptimePercent - 80) / 10) * 20
  else (uptimePercent / 80) * 50

/-- calculateSpeedScore from lib/trust-score.ts. -/
def calculateSpeedScore (avgResponseTimeMs : ℚ) : ℚ :=
  if avgResponseTimeMs < 200 then 95 + ((200 - avgResponseTimeMs) / 200) * 5
  else if avgResponseTimeMs < 500 then 85 + ((500 - avgResponseTimeMs) / 300) * 10
  else if avgResponseTimeMs < 1000 then 70 + ((1000 - avgResponseTimeMs) / 500) * 15
  else if avgResponseTimeMs < 2000 then 50 + ((2000 - avgResponseTimeMs) / 1000) * 20
  else max 0 (50 - ((avgResponseTimeMs - 2000) / 2000) * 50)

/-- calculateAccuracyScore from lib/trust-score.ts. -/
def calculateAccuracyScore (tests : List EndpointTest) : ℚ :=
  if tests.length = 0 then 0
  else
    let validResponses :=
      (tests.filter (fun t => t.is_successful && truthyStr t.response_sample)).length
    let accuracyPercent := ((validResponses : ℚ) / (tests.length : ℚ)) * 100
    if accuracyPercent ≥ 95 then 90 + ((accuracyPercent - 95) / 5) * 10
    else if accuracyPercent ≥ 85 then 75 + ((accuracyPercent - 85) / 10) * 15
    else if accuracyPercent ≥ 70 then 55 + ((accuracyPercent - 70) / 15) * 20
    else (accuracyPercent / 70) * 55

/-- calculateAgeScore from lib/trust-score.ts.  The source reads the clock
(Math.floor (Date.now () / 1000), an integer) inside the function; the
embedding passes that integer in as the parameter now. -/
def calculateAgeScore (firstTestedTimestamp : ℤ) (now : ℤ) : ℚ :=
  let ageInSeconds : ℚ := (now : ℚ) - (firstTestedTimestamp : ℚ)
  let ageInDays := ageInSeconds / (24 * 60 * 60)
  if ageInDays ≥ 30 then 95 + min 5 ((ageInDays - 30) / 30)
  else if ageInDays ≥ 14 then 80 + ((ageInDays - 14) / 16) * 15
  else if ageInDays ≥ 7 then 60 + ((ageInDays - 7) / 7) * 20
  else if ageInDays ≥ 3 then 40 + ((ageInDays - 3) / 4) * 20
  else (ageInDays / 3) * 40

/-- calculateOverallScore from lib/trust-score.ts: 0.35/0.25/0.30/0.10
weighted sum, rounded to one decimal. -/
def calculateOverallScore (uptimeScore speedScore accuracyScore ageScore : ℚ) : ℚ :=
  round1 (uptimeScore * (35/100) + speedScore * (25/100) +
    accuracyScore * (30/100) + ageScore * (10/100))

/-- calculateGrade from lib/trust-score.ts. -/
def calculateGrade (score : ℚ) : String :=
  if score ≥ 98 then "A+"
  else if score ≥ 93 then "A"
  else if score ≥ 90 then "A-"
  else if score ≥ 87 then "B+"
  else if score ≥ 83 then "B"
  else if score ≥ 80 then "B-"
  else if score ≥ 77 then "C+"
  else if score ≥ 73 then "C"
  else if score ≥ 70 then "C-"
  else if score ≥ 60 then "D"
  else "F"

/-- calculateRecommendation from lib/trust-score.ts. -/
def calculateRecommendation (score : ℚ) : String :=
  if score ≥ 85 then "TRUSTED"
  else if score ≥ 65 then "CAUTION"
  else "AVOID"

/-- The TrustScore snapshot produced by calculateTrustScoreForEndpoint. -/
structure TrustScore where
  endpoint_id : ℕ
  uptime_score : ℚ
  speed_score : ℚ
  accuracy_score : ℚ
  age_score : ℚ
  overall_score : ℚ
  grade : String
  recommendation : String
  total_tests : ℕ
  successful_tests : ℕ
  failed_tests : ℕ
  avg_response_time_ms : ℤ
  first_tested_at : Option ℤ
  last_calculated_at : ℤ
deriving DecidableEq

/-- calculateTrustScoreForEndpoint from lib/trust-score.ts, made pure: the
test window (already limited to the 100 most recent tests, newest first, by
getEndpointTests) and the integer clock reading are parameters.  The source
reads Date.now () twice in one invocation (age score and
last_calculated_at); both reads are the same parameter here. -/
def calculateTrustScoreForEndpoint (endpointId : ℕ) (tests : List EndpointTest)
    (now : ℤ) : TrustScore :=
  match tests with
  | [] =>
    { endpoint_id := endpointId
      uptime_score := 0
      speed_score := 0
      accuracy_score := 0
      age_score := 0
      overall_score := 0
      grade := "F"
      recommendation := "AVOID"
      total_tests := 0
      successful_tests := 0
      failed_tests := 0
      avg_response_time_ms := 0
      first_tested_at := none
      last_calculated_at := now }
  | t :: ts =>
    let tests := t :: ts
    let uptimePercent := calculateUptime tests
    let avgResponseTime := calculateAvgResponseTime tests
    let firstTest := tests.getLast (List.cons_ne_nil t ts)
    let uptimeScore := calculateUptimeScore uptimePercent
    let speedScore := calculateSpeedScore avgResponseTime
    let accuracyScore := calculateAccuracyScore tests
    let ageScore := calculateAgeScore firstTest.test_timestamp now
    let overallScore := calculateOverallScore uptimeScore speedScore accuracyScore ageScore
    let successfulTests := (tests.filter (fun u => u.is_successful)).length
    { endpoint_id := endpointId
      uptime_score := round1 uptimeScore
      speed_score := round1 speedScore
      accuracy_score := round1 accuracyScore
      age_score := round1 ageScore
      overall_score := overallScore
      grade := calculateGrade overallScore
      recommendation := calculateRecommendation overallScore
      total_tests := tests.length
      successful_tests := successfulTests
      failed_tests := tests.length - successfulTests
      avg_response_time_ms := jsRound avgResponseTime
      first_tested_at := some firstTest.test_timestamp
      last_calculated_at := now }

/-- A failed test with no latency sample, as produced by a fetch error. -/
def failedTest : EndpointTest :=
  { endpoint_id := 1
    test_timestamp := 0
    status_code := 0
    response_time_ms := 0
    is_successful := false
    response_sample := none }

/-- The body of a /internal/agent-prediction request (EvaluationPredictionRequest
in types.ts).  Optional fields of the interface are Option; number and string
fields are always present once the JSON parses into the declared interface. -/
structure EvaluationPredictionRequest where
  evaluator_url : String
  evaluator_name : Option String
  target_url : String
  target_name : Option String
  prediction_timestamp : ℤ
  predicted_score : ℚ
  predicted_grade : String
  confidence_level : ℚ
  prediction_basis : String
  historical_data_points : Option ℕ
  similar_agents_analyzed : Option ℕ
  features_analyzed : Option String
  actual_evaluation_id : Option ℕ
deriving DecidableEq

/-- JavaScript expr1 OR expr2 on an optional string: the default replaces an
absent or empty (falsy) string. -/
def jsOrStr (v : Option String) (d : String) : String :=
  match v with
  | none => d
  | some s => if s = "" then d else s

/-- JavaScript value OR null on an optional string, as bound into an INSERT:
a falsy string is stored as NULL. -/
def jsOrNullStr (v : Option String) : Option String :=
  match v with
  | none => none
  | some s => if s = "" then none else some s

/-- One row of the evaluation_predictions table as inserted by
handleAgentPrediction.  JSON.stringify of the features_analyzed payload is
elided: the row keeps the request string, with the absent case defaulted the
way the source defaults it to an empty array. -/
structure PredictionRow where
  evaluator_url : String
  evaluator_name : Option String
  target_url : String
  target_name : Option String
  prediction_timestamp : ℤ
  predicted_score : ℚ
  predicted_grade : String
  confidence_level : ℚ
  prediction_basis : String
  historical_data_points : ℕ
  similar_agents_analyzed : ℕ
  features_analyzed : String
  actual_evaluation_id : Option ℕ
deriving DecidableEq

/-- The bound values of the INSERT INTO evaluation_predictions statement. -/
def predictionRowOf (body : EvaluationPredictionRequest) : PredictionRow :=
  { evaluator_url := body.evaluator_url
    evaluator_name := jsOrNullStr body.evaluator_name
    target_url := body.target_url
    target_name := jsOrNullStr body.target_name
    prediction_timestamp := body.prediction_timestamp
    predicted_score := body.predicted_score
    predicted_grade := body.predicted_grade
    confidence_level := body.confidence_level
    prediction_basis := body.prediction_basis
    historical_data_points := body.historical_data_points.getD 0
    similar_agents_analyzed := body.similar_agents_analyzed.getD 0
    features_analyzed := jsOrStr body.features_analyzed "[]"
    actual_evaluation_id := body.actual_evaluation_id }

/-- The body of a /internal/agent-discrepancy request
(PredictionDiscrepancyRequest in types.ts). -/
structure PredictionDiscrepancyRequest where
  evaluator_url : String
  target_url : String
  analysis_timestamp : ℤ
  predicted_score : ℚ
  actual_score : ℚ
  score_difference : ℚ
  absolute_error : ℚ
  predicted_grade : String
  actual_grade : String
  grade_match : Bool
  confidence_was : ℚ
  prediction_basis_was : String
  test_discrepancies : Option String
  accuracy_category : String
  overestimated : Bool
deriving DecidableEq

/-- One row of the prediction_discrepancies table as inserted by
handleAgentDiscrepancy (grade_match and overestimated are stored as 0/1
integers; the Bool carries the same information). -/
structure DiscrepancyRow where
  evaluator_url : String
  target_url : String
  analysis_timestamp : ℤ
  predicted_score : ℚ
  actual_score : ℚ
  score_difference : ℚ
  absolute_error : ℚ
  predicted_grade : String
  actual_grade : String
  grade_match : Bool
  confidence_was : ℚ
  prediction_basis_was : String
  test_discrepancies : String
  accuracy_category : String
  overestimated : Bool
deriving DecidableEq

/-- The bound values of the INSERT INTO prediction_discrepancies statement:
every analytic field, including accuracy_category, is taken verbatim from the
request body. -/
def discrepancyRowOf (body : PredictionDiscrepancyRequest) : DiscrepancyRow :=
  { evaluator_url := body.evaluator_url
    target_url := body.target_url
    analysis_timestamp := body.analysis_timestamp
    predicted_score := body.predicted_score
    actual_score := body.actual_score
    score_difference := body.score_difference
    absolute_error := body.absolute_error
    predicted_grade := body.predicted_grade
    actual_grade := body.actual_grade
    grade_match := body.grade_match
    confidence_was := body.confidence_was
    prediction_basis_was := body.prediction_basis_was
    test_discrepancies := jsOrStr body.test_discrepancies "[]"
    accuracy_category := body.accuracy_category
    overestimated := body.overestimated }

/-- The columns of an evaluators row read and written by
handleAgentDiscrepancy, plus trust_score (INTEGER, schema default 500). -/
structure EvaluatorRow where
  trust_score : ℤ
  total_predictions : ℕ
  avg_absolute_error : ℚ
  grade_accuracy_rate : ℚ
  prediction_accuracy_rate : ℚ
deriving DecidableEq

/-- The running-average update handleAgentDiscrepancy applies to an existing
evaluators row: it sets total_predictions, avg_absolute_error,
grade_accuracy_rate and prediction_accuracy_rate and touches no other
column. -/
def updateEvaluatorRow (e : EvaluatorRow) (absolute_error : ℚ)
    (grade_match : Bool) : EvaluatorRow :=
  let newTotalPredictions := e.total_predictions + 1
  let newAvgError := (e.avg_absolute_error * (e.total_predictions : ℚ) + absolute_error) /
    (newTotalPredictions : ℚ)
  let gradeMatch : ℚ := if grade_match then 1 else 0
  let newGradeAccuracy := (e.grade_accuracy_rate * (e.total_predictions : ℚ) + gradeMatch) /
    (newTotalPredictions : ℚ)
  { e with
    total_predictions := newTotalPredictions
    avg_absolute_error := newAvgError
    grade_accuracy_rate := newGradeAccuracy
    prediction_accuracy_rate := 1 - newAvgError / 100 }

/-- One row of the evaluator_reputation_history table (migration 0005); the
handlers under verification only ever read this table. -/
structure ReputationSnapshot where
  evaluator_id : ℕ
  snapshot_timestamp : ℤ
  trust_score : ℤ
  change_reason : String
  score_change : ℤ
deriving DecidableEq

/-- The D1 state touched by the prediction and discrepancy handlers:
evaluators is keyed by its UNIQUE evaluator_url column. -/
structure DB where
  predictions : List PredictionRow
  discrepancies : List DiscrepancyRow
  evaluators : List (String × EvaluatorRow)
  reputation_history : List ReputationSnapshot
deriving DecidableEq

/-- SELECT snd of the evaluators row WHERE evaluator_url matches. -/
def lookupEvaluator (db : DB) (url : String) : Option EvaluatorRow :=
  (db.evaluators.find? (fun p => p.1 == url)).map Prod.snd

/-- The UPDATE evaluators statement of handleAgentDiscrepancy: the row whose
key matches (the source matches on the id fetched by url; url is UNIQUE) gets
the running-average update, every other row is untouched. -/
def updateEvaluators (evs : List (String × EvaluatorRow)) (url : String)
    (absolute_error : ℚ) (grade_match : Bool) : List (String × EvaluatorRow) :=
  evs.map (fun p =>
    if p.1 = url then (p.1, updateEvaluatorRow p.2 absolute_error grade_match) else p)

/-- handleAgentDiscrepancy from index.ts as a state transformer, success flag
second.  Validation rejects a falsy evaluator_url or target_url (the two
score fields of the typed body are never undefined); on the success path the
discrepancy row is inserted, and the evaluators row is updated only if it
already exists — no row is created, trust_score is never written, and
reputation_history is never written. -/
def handleAgentDiscrepancy (db : DB) (body : PredictionDiscrepancyRequest) :
    DB × Bool :=
  if body.evaluator_url = "" ∨ body.target_url = "" then (db, false)
  else
    ({ db with
        discrepancies := db.discrepancies ++ [discrepancyRowOf body]
        evaluators := updateEvaluators db.evaluators body.evaluator_url
          body.absolute_error body.grade_match },
      true)

/-- handleAgentPrediction from index.ts as a state transformer.  Validation
checks only the truthiness of evaluator_url, target_url, predicted_score and
predicted_grade; confidence_level is bound into the INSERT unchecked. -/
def handleAgentPrediction (db : DB) (body : EvaluationPredictionRequest) :
    DB × Bool :=
  if body.evaluator_url = "" ∨ body.target_url = "" ∨ body.predicted_score = 0 ∨
      body.predicted_grade = "" then
    (db, false)
  else
    ({ db with predictions := db.predictions ++ [predictionRowOf body] }, true)

/-- Modelled from the spec: the accuracy-category band function on
absolute_error used by the external discrepancy analyzer (its code is not in
this repository; the bands are documented with the accuracy_category column
in migration 0004): error below 5 is excellent, below 10 good, below 20 fair,
otherwise poor. -/
def accuracyCategorySpec (absolute_error : ℚ) : String :=
  if absolute_error < 5 then "excellent"
  else if absolute_error < 10 then "good"
  else if absolute_error < 20 then "fair"
  else "poor"

/-- Folding the per-discrepancy running-average update over a stream of
(absolute_error, grade_match) pairs. -/
def foldDiscrepancies (e : EvaluatorRow) (l : List (ℚ × Bool)) : EvaluatorRow :=
  l.foldl (fun r p => updateEvaluatorRow r p.1 p.2) e

/-- Folding the discrepancy handler over a stream of request bodies. -/
def foldHandleDiscrepancies (db : DB) (reqs : List PredictionDiscrepancyRequest) : DB :=
  reqs.foldl (fun d r => (handleAgentDiscrepancy d r).1) db

/-- An evaluators row as freshly created by the schema defaults of migration
0005 (trust_score 500, every counter 0). -/
def freshEvaluatorRow : EvaluatorRow :=
  { trust_score := 500
    total_predictions := 0
    avg_absolute_error := 0
    grade_accuracy_rate := 0
    prediction_accuracy_rate := 0 }

/-- An empty database: the system's initial state. -/
def emptyDB : DB :=
  { predictions := []
    discrepancies := []
    evaluators := []
    reputation_history := [] }

/-- A database holding one registered evaluator with the schema-default
reputation columns. -/
def dbWithEvaluator : DB :=
  { predictions := []
    discrepancies := []
    evaluators := [("https://evaluator.example", freshEvaluatorRow)]
    reputation_history := [] }

/-- A discrepancy request in the excellent band: absolute error 2 and
matching grades. -/
def excellentReq : PredictionDiscrepancyRequest :=
  { evaluator_url := "https://evaluator.example"
    target_url := "https://target.example"
    analysis_timestamp := 1700000000
    predicted_score := 90
    actual_score := 92
    score_difference := 2
    absolute_error := 2
    predicted_grade := "A"
    actual_grade := "A"
    grade_match := true
    confidence_was := 9/10
    prediction_basis_was := "historical"
    test_discrepancies := none
    accuracy_category := "excellent"
    overestimated := false }

/-- A discrepancy request in the poor band: absolute error 30. -/
def poorReq : PredictionDiscrepancyRequest :=
  { evaluator_url := "https://evaluator.example"
    target_url := "https://target.example"
    analysis_timestamp := 1700000100
    predicted_score := 90
    actual_score := 60
    score_difference := -30
    absolute_error := 30
    predicted_grade := "A"
    actual_grade := "D"
    grade_match := false
    confidence_was := 8/10
    prediction_basis_was := "historical"
    test_discrepancies := none
    accuracy_category := "poor"
    overestimated := true }

/-- A discrepancy request whose client-supplied accuracy_category (poor)
contradicts its absolute_error (2, an excellent-band error). -/
def mismatchedCategoryReq : PredictionDiscrepancyRequest :=
  { excellentReq with accuracy_category := "poor" }

/-- A discrepancy request with absolute error 200 (scores outside [0,100]
are never validated anywhere on this path). -/
def hugeErrorReq : PredictionDiscrepancyRequest :=
  { evaluator_url := "https://evaluator.example"
    target_url := "https://target.example"
    analysis_timestamp := 1700000200
    predicted_score := 250
    actual_score := 50
    score_difference := -200
    absolute_error := 200
    predicted_grade := "A"
    actual_grade := "F"
    grade_match := false
    confidence_was := 1
    prediction_basis_was := "baseline"
    test_discrepancies := none
    accuracy_category := "poor"
    overestimated := true }

/-- A prediction request whose confidence_level 5 is far outside [0,1],
with every required field present and truthy. -/
def outOfRangeConfidenceReq : EvaluationPredictionRequest :=
  { evaluator_url := "https://evaluator.example"
    evaluator_name := none
    target_url := "https://target.example"
    target_name := none
    prediction_timestamp := 1700000000
    predicted_score := 80
    predicted_grade := "B"
    confidence_level := 5
    prediction_basis := "historical"
    historical_data_points := none
    similar_agents_analyzed := none
    features_analyzed := none
    actual_evaluation_id := none }

set_option maxHeartbeats 2000000 in
/-- Helper: full band characterization of calculateGrade, plus coverage. -/
theorem calculateGrade_bands (s : ℚ) :
    ((calculateGrade s = "A+") ↔ 98 ≤ s) ∧
    ((calculateGrade s = "A") ↔ 93 ≤ s ∧ s < 98) ∧
    ((calculateGrade s = "A-") ↔ 90 ≤ s ∧ s < 93) ∧
    ((calculateGrade s = "B+") ↔ 87 ≤ s ∧ s < 90) ∧
    ((calculateGrade s = "B") ↔ 83 ≤ s ∧ s < 87) ∧
    ((calculateGrade s = "B-") ↔ 80 ≤ s ∧ s < 83) ∧
    ((calculateGrade s = "C+") ↔ 77 ≤ s ∧ s < 80) ∧
    ((calculateGrade s = "C") ↔ 73 ≤ s ∧ s < 77) ∧
    ((calculateGrade s = "C-") ↔ 70 ≤ s ∧ s < 73) ∧
    ((calculateGrade s = "D") ↔ 60 ≤ s ∧ s < 70) ∧
    ((calculateGrade s = "F") ↔ s < 60) ∧
    calculateGrade s ∈ ["A+", "A", "A-", "B+", "B", "B-", "C+", "C", "C-", "D", "F"] := by
  unfold calculateGrade
  split_ifs <;> simp_all <;> (repeat' apply And.intro) <;> (intros; linarith)

/-- Helper: full band characterization of calculateRecommendation, plus
coverage. -/
theorem calculateRecommendation_bands (s : ℚ) :
    ((calculateRecommendation s = "TRUSTED") ↔ 85 ≤ s) ∧
    ((calculateRecommendation s = "CAUTION") ↔ 65 ≤ s ∧ s < 85) ∧
    ((calculateRecommendation s = "AVOID") ↔ s < 65) ∧
    calculateRecommendation s ∈ ["TRUSTED", "CAUTION", "AVOID"] := by
  unfold calculateRecommendation
  split_ifs <;> simp_all <;> (repeat' apply And.intro) <;> (intros; linarith)

/-- C8: for every overall_score the grade and the recommendation are each
exactly the one dictated by the stated thresholds — each output string is
equivalent to its half-open band, the bands cover every rational score
(hence every score in [0,100]), and overlap is impossible because the
function value determines a single band. -/
theorem C8_grade_recommendation_bands (s : ℚ) :
    (((calculateGrade s = "A+") ↔ 98 ≤ s) ∧
     ((calculateGrade s = "A") ↔ 93 ≤ s ∧ s < 98) ∧
     ((calculateGrade s = "A-") ↔ 90 ≤ s ∧ s < 93) ∧
     ((calculateGrade s = "B+") ↔ 87 ≤ s ∧ s < 90) ∧
     ((calculateGrade s = "B") ↔ 83 ≤ s ∧ s < 87) ∧
     ((calculateGrade s = "B-") ↔ 80 ≤ s ∧ s < 83) ∧
     ((calculateGrade s = "C+") ↔ 77 ≤ s ∧ s < 80) ∧
     ((calculateGrade s = "C") ↔ 73 ≤ s ∧ s < 77) ∧
     ((calculateGrade s = "C-") ↔ 70 ≤ s ∧ s < 73) ∧
     ((calculateGrade s = "D") ↔ 60 ≤ s ∧ s < 70) ∧
     ((calculateGrade s = "F") ↔ s < 60) ∧
     calculateGrade s ∈ ["A+", "A", "A-", "B+", "B", "B-", "C+", "C", "C-", "D", "F"]) ∧
    (((calculateRecommendation s = "TRUSTED") ↔ 85 ≤ s) ∧
     ((calculateRecommendation s = "CAUTION") ↔ 65 ≤ s ∧ s < 85) ∧
     ((calculateRecommendation s = "AVOID") ↔ s < 65) ∧
     calculateRecommendation s ∈ ["TRUSTED", "CAUTION", "AVOID"]) :=
  ⟨calculateGrade_bands s, calculateRecommendation_bands s⟩

/-- C4 (amended): the TrustScore computation is deterministic in the window
and the clock reading together; every output that does not flow through the
age score — uptime, speed and accuracy sub-scores, all test counters, the
mean latency and the first-tested timestamp — depends on the test window
alone, unchanged between computations at different times. -/
theorem C4_subscores_independent_of_clock (endpointId : ℕ)
    (tests : List EndpointTest) (now1 now2 : ℤ) :
    (calculateTrustScoreForEndpoint endpointId tests now1).uptime_score
      = (calculateTrustScoreForEndpoint endpointId tests now2).uptime_score ∧
    (calculateTrustScoreForEndpoint endpointId tests now1).speed_score
      = (calculateTrustScoreForEndpoint endpointId tests now2).speed_score ∧
    (calculateTrustScoreForEndpoint endpointId tests now1).accuracy_score
      = (calculateTrustScoreForEndpoint endpointId tests now2).accuracy_score ∧
    (calculateTrustScoreForEndpoint endpointId tests now1).total_tests
      = (calculateTrustScoreForEndpoint endpointId tests now2).total_tests ∧
    (calculateTrustScoreForEndpoint endpointId tests now1).successful_tests
      = (calculateTrustScoreForEndpoint endpointId tests now2).successful_tests ∧
    (calculateTrustScoreForEndpoint endpointId tests now1).failed_tests
      = (calculateTrustScoreForEndpoint endpointId tests now2).failed_tests ∧
    (calculateTrustScoreForEndpoint endpointId tests now1).avg_response_time_ms
      = (calculateTrustScoreForEndpoint endpointId tests now2).avg_response_time_ms ∧
    (calculateTrustScoreForEndpoint endpointId tests now1).first_tested_at
      = (calculateTrustScoreForEndpoint endpointId tests now2).first_tested_at := by
  cases tests <;> exact ⟨rfl, rfl, rfl, rfl, rfl, rfl, rfl, rfl⟩

/-- C4 counterexample: one fixed window (a single failed test taken at
timestamp 0) computed at two different times yields different overall
scores — 25 when computed at the test's own moment, 34.5 thirty days
later — because the age score reads the clock.  The claim that trust-score
computation is deterministic in the test window alone is therefore false. -/
theorem C4_overall_score_time_dependent_cex :
    (calculateTrustScoreForEndpoint 1 [failedTest] 0).overall_score = 25 ∧
    (calculateTrustScoreForEndpoint 1 [failedTest] 2592000).overall_score = 69/2 ∧
    (25 : ℚ) ≠ 69/2 := by
  have hproj0 : (calculateTrustScoreForEndpoint 1 [failedTest] 0).overall_score
      = calculateOverallScore (calculateUptimeScore (calculateUptime [failedTest]))
        (calculateSpeedScore (calculateAvgResponseTime [failedTest]))
        (calculateAccuracyScore [failedTest])
        (calculateAgeScore failedTest.test_timestamp 0) := rfl
  have hproj1 : (calculateTrustScoreForEndpoint 1 [failedTest] 2592000).overall_score
      = calculateOverallScore (calculateUptimeScore (calculateUptime [failedTest]))
        (calculateSpeedScore (calculateAvgResponseTime [failedTest]))
        (calculateAccuracyScore [failedTest])
        (calculateAgeScore failedTest.test_timestamp 2592000) := rfl
  have hu : calculateUptime [failedTest] = 0 := by
    norm_num [calculateUptime, failedTest, List.filter]
  have ha : calculateAvgResponseTime [failedTest] = 0 := by
    norm_num [calculateAvgResponseTime, failedTest, List.filter]
  have hacc : calculateAccuracyScore [failedTest] = 0 := by
    norm_num [calculateAccuracyScore, failedTest, List.filter, truthyStr]
  have hts : failedTest.test_timestamp = 0 := rfl
  rw [hproj0, hproj1, hu, ha, hacc, hts]
  norm_num [calculateUptimeScore, calculateSpeedScore, calculateAgeScore,
    calculateOverallScore, round1, jsRound]

/-- C10: in every non-empty window with no test that is both successful and
carries a non-zero latency, the mean response time is 0, the speed score is
100 (the maximum, worth the full 0.25·100 = 25 points of the weighted sum),
and if moreover every test failed the uptime score is 0. -/
theorem C10_failed_window_full_speed_score (endpointId : ℕ) (now : ℤ)
    (tests : List EndpointTest) (hne : tests ≠ [])
    (hno : ∀ t ∈ tests, ¬(t.is_successful = true ∧ t.response_time_ms ≠ 0)) :
    calculateAvgResponseTime tests = 0 ∧
    calculateSpeedScore (calculateAvgResponseTime tests) = 100 ∧
    (calculateTrustScoreForEndpoint endpointId tests now).speed_score = 100 ∧
    calculateSpeedScore (calculateAvgResponseTime tests) * (25/100) = 25 ∧
    ((∀ t ∈ tests, t.is_successful = false) →
      calculateUptimeScore (calculateUptime tests) = 0 ∧
      (calculateTrustScoreForEndpoint endpointId tests now).uptime_score = 0) := by
  obtain ⟨a, l, rfl⟩ : ∃ a l, tests = a :: l := by
    cases tests with
    | nil => exact absurd rfl hne
    | cons a l => exact ⟨a, l, rfl⟩
  have hfilter : (a :: l).filter
      (fun t => t.is_successful && decide (t.response_time_ms ≠ 0)) = [] := by
    apply List.filter_eq_nil_iff.mpr
    intro t ht
    simpa using hno t ht
  have havg : calculateAvgResponseTime (a :: l) = 0 := by
    unfold calculateAvgResponseTime
    rw [hfilter]
    rfl
  have hspeed : calculateSpeedScore 0 = 100 := by norm_num [calculateSpeedScore]
  have hrec : (calculateTrustScoreForEndpoint endpointId (a :: l) now).speed_score
      = round1 (calculateSpeedScore (calculateAvgResponseTime (a :: l))) := rfl
  refine ⟨havg, by rw [havg]; exact hspeed, ?_, by rw [havg, hspeed]; norm_num, ?_⟩
  · rw [hrec, havg, hspeed]
    norm_num [round1, jsRound]
  · intro hall
    have hsf : (a :: l).filter (fun u => u.is_successful) = [] := by
      apply List.filter_eq_nil_iff.mpr
      intro t ht
      simp [hall t ht]
    have hup : calculateUptime (a :: l) = 0 := by
      simp [calculateUptime, hsf]
    have hupscore : calculateUptimeScore 0 = 0 := by norm_num [calculateUptimeScore]
    have hrecu : (calculateTrustScoreForEndpoint endpointId (a :: l) now).uptime_score
        = round1 (calculateUptimeScore (calculateUptime (a :: l))) := rfl
    refine ⟨by rw [hup]; exact hupscore, ?_⟩
    rw [hrecu, hup, hupscore]
    norm_num [round1, jsRound]

/-- C10 witness: a window of 100 failed tests gets mean response time 0,
speed score 100 and uptime score 0. -/
theorem C10_failed_window_full_speed_score_witness :
    calculateAvgResponseTime (List.replicate 100 failedTest) = 0 ∧
    (calculateTrustScoreForEndpoint 1 (List.replicate 100 failedTest) 0).speed_score = 100 ∧
    (calculateTrustScoreForEndpoint 1 (List.replicate 100 failedTest) 0).uptime_score = 0 := by
  have h := C10_failed_window_full_speed_score 1 0 (List.replicate 100 failedTest)
    (by decide) (by decide)
  exact ⟨h.1, h.2.2.1, (h.2.2.2.2 (by decide)).2⟩

/-- Helper: the running-average update never writes trust_score. -/
theorem updateEvaluatorRow_trust_score (e : EvaluatorRow) (a : ℚ) (g : Bool) :
    (updateEvaluatorRow e a g).trust_score = e.trust_score := rfl

/-- Helper: the running-average update increments total_predictions. -/
theorem updateEvaluatorRow_total (e : EvaluatorRow) (a : ℚ) (g : Bool) :
    (updateEvaluatorRow e a g).total_predictions = e.total_predictions + 1 := rfl

/-- Helper: the new average times the new count recovers the accumulated
error sum. -/
theorem updateEvaluatorRow_avg_mul (e : EvaluatorRow) (a : ℚ) (g : Bool) :
    (updateEvaluatorRow e a g).avg_absolute_error * ((e.total_predictions : ℚ) + 1)
      = e.avg_absolute_error * (e.total_predictions : ℚ) + a := by
  have h : ((e.total_predictions : ℚ) + 1) ≠ 0 := by positivity
  show (e.avg_absolute_error * (e.total_predictions : ℚ) + a) /
      ((e.total_predictions + 1 : ℕ) : ℚ) * ((e.total_predictions : ℚ) + 1)
    = e.avg_absolute_error * (e.total_predictions : ℚ) + a
  push_cast
  exact div_mul_cancel₀ _ h

/-- Helper: the new grade-accuracy rate times the new count recovers the
accumulated count of grade matches. -/
theorem updateEvaluatorRow_grade_mul (e : EvaluatorRow) (a : ℚ) (g : Bool) :
    (updateEvaluatorRow e a g).grade_accuracy_rate * ((e.total_predictions : ℚ) + 1)
      = e.grade_accuracy_rate * (e.total_predictions : ℚ) + (if g then 1 else 0) := by
  have h : ((e.total_predictions : ℚ) + 1) ≠ 0 := by positivity
  show (e.grade_accuracy_rate * (e.total_predictions : ℚ) + _) /
      ((e.total_predictions + 1 : ℕ) : ℚ) * ((e.total_predictions : ℚ) + 1)
    = e.grade_accuracy_rate * (e.total_predictions : ℚ) + _
  push_cast
  exact div_mul_cancel₀ _ h

/-- Helper: invariants of folding the running-average update over a stream:
the counter grows by the stream length, average times counter accumulates the
error sum, grade rate times counter accumulates the match count, and the
trust score never moves. -/
theorem foldDiscrepancies_spec (l : List (ℚ × Bool)) : ∀ e : EvaluatorRow,
    (foldDiscrepancies e l).total_predictions = e.total_predictions + l.length ∧
    (foldDiscrepancies e l).avg_absolute_error *
        (((foldDiscrepancies e l).total_predictions : ℚ))
      = e.avg_absolute_error * (e.total_predictions : ℚ) + (l.map Prod.fst).sum ∧
    (foldDiscrepancies e l).grade_accuracy_rate *
        (((foldDiscrepancies e l).total_predictions : ℚ))
      = e.grade_accuracy_rate * (e.total_predictions : ℚ) +
        (((l.filter (fun p => p.2)).length : ℚ)) ∧
    (foldDiscrepancies e l).trust_score = e.trust_score := by
  induction l with
  | nil =>
    intro e
    exact ⟨rfl, by simp [foldDiscrepancies], by simp [foldDiscrepancies], rfl⟩
  | cons p t ih =>
    intro e
    have hfold : foldDiscrepancies e (p :: t)
        = foldDiscrepancies (updateEvaluatorRow e p.1 p.2) t := rfl
    obtain ⟨h1, h2, h3, h4⟩ := ih (updateEvaluatorRow e p.1 p.2)
    rw [hfold]
    refine ⟨?_, ?_, ?_, ?_⟩
    · rw [h1, updateEvaluatorRow_total]
      simp only [List.length_cons]
      omega
    · rw [h2, updateEvaluatorRow_total]
      push_cast
      rw [updateEvaluatorRow_avg_mul]
      simp only [List.map_cons, List.sum_cons]
      ring
    · rw [h3, updateEvaluatorRow_total]
      push_cast
      rw [updateEvaluatorRow_grade_mul]
      cases hp : p.2 <;> simp [hp, List.filter_cons] <;> push_cast <;> ring
    · rw [h4, updateEvaluatorRow_trust_score]

/-- Helper: after any update the stored rate is exactly 1 − avg/100, and this
shape is preserved by further updates. -/
theorem foldDiscrepancies_rate (t : List (ℚ × Bool)) : ∀ e : EvaluatorRow,
    e.prediction_accuracy_rate = 1 - e.avg_absolute_error / 100 →
    (foldDiscrepancies e t).prediction_accuracy_rate
      = 1 - (foldDiscrepancies e t).avg_absolute_error / 100 := by
  induction t with
  | nil => intro e h; exact h
  | cons p t ih => intro e h; exact ih (updateEvaluatorRow e p.1 p.2) rfl

/-- Helper: closed forms of the counters after folding the update from a
zero-counter profile. -/
theorem foldDiscrepancies_from_zero (l : List (ℚ × Bool)) (trust : ℤ) :
    (foldDiscrepancies ⟨trust, 0, 0, 0, 0⟩ l).total_predictions = l.length ∧
    (foldDiscrepancies ⟨trust, 0, 0, 0, 0⟩ l).avg_absolute_error
      = (l.map Prod.fst).sum / (l.length : ℚ) ∧
    (foldDiscrepancies ⟨trust, 0, 0, 0, 0⟩ l).grade_accuracy_rate
      = ((l.filter (fun p => p.2)).length : ℚ) / (l.length : ℚ) := by
  obtain ⟨h1, h2, h3, -⟩ := foldDiscrepancies_spec l ⟨trust, 0, 0, 0, 0⟩
  simp only at h1 h2 h3
  rw [Nat.zero_add] at h1
  rcases Nat.eq_zero_or_pos l.length with hl | hl
  · have hnil : l = [] := List.length_eq_zero.mp hl
    subst hnil
    refine ⟨rfl, ?_, ?_⟩ <;> simp [foldDiscrepancies]
  · have hne : ((l.length : ℚ)) ≠ 0 := by
      exact_mod_cast Nat.pos_iff_ne_zero.mp hl
    rw [h1] at h2 h3
    refine ⟨h1, ?_, ?_⟩
    · rw [eq_div_iff hne, h2]
      ring
    · rw [eq_div_iff hne, h3]
      ring

/-- C6: the incremental running-average update is exact — starting from a
profile with every counter at zero, after the updates for n discrepancies
with errors e₁..eₙ the profile holds total_predictions = n,
avg_absolute_error = (Σ eᵢ)/n and grade_accuracy_rate = (number of
grade-matching discrepancies)/n. -/
theorem C6_running_average_exact (l : List (ℚ × Bool)) (trust : ℤ) :
    (foldDiscrepancies ⟨trust, 0, 0, 0, 0⟩ l).total_predictions = l.length ∧
    (foldDiscrepancies ⟨trust, 0, 0, 0, 0⟩ l).avg_absolute_error
      = (l.map Prod.fst).sum / (l.length : ℚ) ∧
    (foldDiscrepancies ⟨trust, 0, 0, 0, 0⟩ l).grade_accuracy_rate
      = ((l.filter (fun p => p.2)).length : ℚ) / (l.length : ℚ) :=
  foldDiscrepancies_from_zero l trust

/-- C7 (amended): prediction_accuracy_rate is set to 1 − new_avg_error/100
with no clamping: the stored rate always equals that expression exactly, and
while it never exceeds 1 as long as reported errors are non-negative, nothing
prevents it from leaving [0,1] from below (see the counterexample). -/
theorem C7_accuracy_rate_unclamped :
    (∀ (e : EvaluatorRow) (a : ℚ) (g : Bool),
      (updateEvaluatorRow e a g).prediction_accuracy_rate
        = 1 - (updateEvaluatorRow e a g).avg_absolute_error / 100) ∧
    (∀ (l : List (ℚ × Bool)) (trust : ℤ), (∀ p ∈ l, 0 ≤ p.1) →
      (foldDiscrepancies ⟨trust, 0, 0, 0, 0⟩ l).prediction_accuracy_rate ≤ 1) := by
  refine ⟨fun e a g => rfl, ?_⟩
  intro l trust hpos
  cases l with
  | nil => norm_num [foldDiscrepancies]
  | cons p t =>
    have hrate := foldDiscrepancies_rate (p :: t) ⟨trust, 0, 0, 0, 0⟩
    have hrate' : (foldDiscrepancies ⟨trust, 0, 0, 0, 0⟩ (p :: t)).prediction_accuracy_rate
        = 1 - (foldDiscrepancies ⟨trust, 0, 0, 0, 0⟩ (p :: t)).avg_absolute_error / 100 := by
      have hstep : foldDiscrepancies ⟨trust, 0, 0, 0, 0⟩ (p :: t)
          = foldDiscrepancies (updateEvaluatorRow ⟨trust, 0, 0, 0, 0⟩ p.1 p.2) t := rfl
      rw [hstep]
      exact foldDiscrepancies_rate t _ rfl
    have havg : (foldDiscrepancies ⟨trust, 0, 0, 0, 0⟩ (p :: t)).avg_absolute_error
        = ((p :: t).map Prod.fst).sum / (((p :: t).length : ℚ)) :=
      (foldDiscrepancies_from_zero (p :: t) trust).2.1
    have hsum : 0 ≤ ((p :: t).map Prod.fst).sum := by
      apply List.sum_nonneg
      intro x hx
      obtain ⟨q, hq, rfl⟩ := List.mem_map.mp hx
      exact hpos q hq
    have hnonneg : 0 ≤ (foldDiscrepancies ⟨trust, 0, 0, 0, 0⟩ (p :: t)).avg_absolute_error := by
      rw [havg]
      positivity
    rw [hrate']
    linarith

/-- C7 witness: one recorded discrepancy with non-negative error 200 leaves
a rate of −1, which is indeed at most 1, by the amended theorem. -/
theorem C7_accuracy_rate_unclamped_witness :
    (foldDiscrepancies ⟨500, 0, 0, 0, 0⟩ [((200 : ℚ), false)]).prediction_accuracy_rate ≤ 1 :=
  C7_accuracy_rate_unclamped.2 [(200, false)] 500 (by decide)

/-- C7 counterexample: one discrepancy with absolute error 200 recorded for a
registered evaluator with zero counters leaves a stored
prediction_accuracy_rate of 1 − 200/100 = −1, outside [0,1]: the derived rate
is not clamped as claimed. -/
theorem C7_rate_out_of_range_cex :
    (updateEvaluatorRow freshEvaluatorRow 200 false).prediction_accuracy_rate = -1 ∧
    (lookupEvaluator (handleAgentDiscrepancy dbWithEvaluator hugeErrorReq).1
        "https://evaluator.example").map (fun e => e.prediction_accuracy_rate)
      = some (-1) ∧
    ¬(0 ≤ (-1 : ℚ)) := by
  have hrate : (updateEvaluatorRow freshEvaluatorRow 200 false).prediction_accuracy_rate = -1 := by
    show 1 - ((freshEvaluatorRow.avg_absolute_error * (freshEvaluatorRow.total_predictions : ℚ)
      + 200) / ((freshEvaluatorRow.total_predictions + 1 : ℕ) : ℚ)) / 100 = -1
    norm_num [freshEvaluatorRow]
  refine ⟨hrate, ?_, by norm_num⟩
  have hlook : lookupEvaluator (handleAgentDiscrepancy dbWithEvaluator hugeErrorReq).1
      "https://evaluator.example"
      = some (updateEvaluatorRow freshEvaluatorRow 200 false) := by
    rfl
  rw [hlook]
  show some ((updateEvaluatorRow freshEvaluatorRow 200 false).prediction_accuracy_rate)
    = some (-1)
  exact congrArg some hrate

/-- Helper: looking a row up after the UPDATE statement of the discrepancy
handler: keys are preserved, only a row keyed by the request url is
rewritten. -/
theorem lookupEvaluator_updateEvaluators (evs : List (String × EvaluatorRow))
    (u0 url : String) (a : ℚ) (g : Bool) :
    ((updateEvaluators evs u0 a g).find? (fun p => p.1 == url)).map Prod.snd
      = ((evs.find? (fun p => p.1 == url)).map Prod.snd).map
          (fun e => if url = u0 then updateEvaluatorRow e a g else e) := by
  induction evs with
  | nil => rfl
  | cons p t ih =>
    have hfst : (if p.1 = u0 then (p.1, updateEvaluatorRow p.2 a g) else p).1 = p.1 := by
      split <;> rfl
    have hcons : updateEvaluators (p :: t) u0 a g
        = (if p.1 = u0 then (p.1, updateEvaluatorRow p.2 a g) else p) ::
          updateEvaluators t u0 a g := rfl
    by_cases hb : p.1 == url
    · have hpu : p.1 = url := by simpa using hb
      have h1 : (updateEvaluators (p :: t) u0 a g).find? (fun q => q.1 == url)
          = some (if p.1 = u0 then (p.1, updateEvaluatorRow p.2 a g) else p) := by
        rw [hcons]
        apply List.find?_cons_of_pos
        rw [hfst]
        exact hb
      have h2 : (p :: t).find? (fun q => q.1 == url) = some p :=
        List.find?_cons_of_pos _ hb
      rw [h1, h2]
      subst hpu
      by_cases hu : p.1 = u0
      · simp [hu]
      · simp [hu]
    · have h1 : (updateEvaluators (p :: t) u0 a g).find? (fun q => q.1 == url)
          = (updateEvaluators t u0 a g).find? (fun q => q.1 == url) := by
        rw [hcons]
        apply List.find?_cons_of_neg
        rw [hfst]
        exact hb
      have h2 : (p :: t).find? (fun q => q.1 == url) = t.find? (fun q => q.1 == url) :=
        List.find?_cons_of_neg _ hb
      rw [h1, h2]
      exact ih

/-- Helper: the evaluator row the discrepancy handler leaves at any url:
untouched on a validation failure, otherwise the targeted row updated, absent
rows stay absent, and trust_score is unchanged either way. -/
theorem lookupEvaluator_handleAgentDiscrepancy (db : DB)
    (body : PredictionDiscrepancyRequest) (url : String) :
    lookupEvaluator (handleAgentDiscrepancy db body).1 url
      = if body.evaluator_url = "" ∨ body.target_url = "" then lookupEvaluator db url
        else (lookupEvaluator db url).map
          (fun e => if url = body.evaluator_url then
            updateEvaluatorRow e body.absolute_error body.grade_match else e) := by
  by_cases h : body.evaluator_url = "" ∨ body.target_url = ""
  · rw [if_pos h]
    unfold handleAgentDiscrepancy lookupEvaluator
    rw [if_pos h]
  · rw [if_neg h]
    have hlhs : lookupEvaluator (handleAgentDiscrepancy db body).1 url
        = ((updateEvaluators db.evaluators body.evaluator_url body.absolute_error
            body.grade_match).find? (fun p => p.1 == url)).map Prod.snd := by
      unfold handleAgentDiscrepancy lookupEvaluator
      rw [if_neg h]
    rw [hlhs, lookupEvaluator_updateEvaluators]
    rfl

/-- Helper: a single discrepancy request leaves every trust_score lookup
unchanged. -/
theorem handleAgentDiscrepancy_trust_lookup (db : DB)
    (body : PredictionDiscrepancyRequest) (url : String) :
    (lookupEvaluator (handleAgentDiscrepancy db body).1 url).map (fun e => e.trust_score)
      = (lookupEvaluator db url).map (fun e => e.trust_score) := by
  rw [lookupEvaluator_handleAgentDiscrepancy]
  split_ifs with h h2
  · rfl
  · cases lookupEvaluator db url <;>
      simp [updateEvaluatorRow_trust_score]
  · cases lookupEvaluator db url <;> simp

/-- Helper: trust lookups are unchanged across any stream of discrepancy
requests. -/
theorem foldHandleDiscrepancies_trust_lookup (reqs : List PredictionDiscrepancyRequest) :
    ∀ (db : DB) (url : String),
    (lookupEvaluator (foldHandleDiscrepancies db reqs) url).map (fun e => e.trust_score)
      = (lookupEvaluator db url).map (fun e => e.trust_score) := by
  induction reqs with
  | nil => intro db url; rfl
  | cons r t ih =>
    intro db url
    have hstep : foldHandleDiscrepancies db (r :: t)
        = foldHandleDiscrepancies (handleAgentDiscrepancy db r).1 t := rfl
    rw [hstep, ih, handleAgentDiscrepancy_trust_lookup]

/-- Helper: every evaluators row after one discrepancy request carries the
trust_score of some row that was already in the table. -/
theorem handleAgentDiscrepancy_trust_mem (db : DB)
    (body : PredictionDiscrepancyRequest) :
    ∀ p ∈ (handleAgentDiscrepancy db body).1.evaluators,
      ∃ q ∈ db.evaluators, p.2.trust_score = q.2.trust_score := by
  intro p hp
  unfold handleAgentDiscrepancy at hp
  split_ifs at hp with h
  · exact ⟨p, hp, rfl⟩
  · have hp' : p ∈ updateEvaluators db.evaluators body.evaluator_url
        body.absolute_error body.grade_match := hp
    unfold updateEvaluators at hp'
    obtain ⟨q, hq, rfl⟩ := List.mem_map.mp hp'
    refine ⟨q, hq, ?_⟩
    split <;> simp [updateEvaluatorRow_trust_score]

/-- Helper: trust_score values in the table across any request stream all
come from the initial table. -/
theorem foldHandleDiscrepancies_trust_mem (reqs : List PredictionDiscrepancyRequest) :
    ∀ db : DB, ∀ p ∈ (foldHandleDiscrepancies db reqs).evaluators,
      ∃ q ∈ db.evaluators, p.2.trust_score = q.2.trust_score := by
  induction reqs with
  | nil => intro db p hp; exact ⟨p, hp, rfl⟩
  | cons r t ih =>
    intro db p hp
    have hstep : foldHandleDiscrepancies db (r :: t)
        = foldHandleDiscrepancies (handleAgentDiscrepancy db r).1 t := rfl
    rw [hstep] at hp
    obtain ⟨q, hq, he⟩ := ih (handleAgentDiscrepancy db r).1 p hp
    obtain ⟨q2, hq2, he2⟩ := handleAgentDiscrepancy_trust_mem db r q hq
    exact ⟨q2, hq2, he.trans he2⟩

/-- C1 (amended): recording discrepancies never changes any evaluator's
trust_score at all — the handler writes only the four running-average
columns and implements no per-category delta and no clamp — so across any
sequence of recorded discrepancies every trust_score keeps its prior value
and in particular stays inside [0,1000] whenever it starts there. -/
theorem C1_trust_score_never_changes (db : DB)
    (reqs : List PredictionDiscrepancyRequest) (url : String) :
    (lookupEvaluator (foldHandleDiscrepancies db reqs) url).map (fun e => e.trust_score)
      = (lookupEvaluator db url).map (fun e => e.trust_score) ∧
    ((∀ p ∈ db.evaluators, 0 ≤ p.2.trust_score ∧ p.2.trust_score ≤ 1000) →
      ∀ p ∈ (foldHandleDiscrepancies db reqs).evaluators,
        0 ≤ p.2.trust_score ∧ p.2.trust_score ≤ 1000) := by
  refine ⟨foldHandleDiscrepancies_trust_lookup reqs db url, ?_⟩
  intro hrange p hp
  obtain ⟨q, hq, he⟩ := foldHandleDiscrepancies_trust_mem reqs db p hp
  rw [he]
  exact hrange q hq

/-- C1 witness: a registered evaluator at the schema default 500 stays in
range across two recorded poor discrepancies. -/
theorem C1_trust_score_never_changes_witness :
    (∀ p ∈ dbWithEvaluator.evaluators, 0 ≤ p.2.trust_score ∧ p.2.trust_score ≤ 1000) ∧
    (∀ p ∈ (foldHandleDiscrepancies dbWithEvaluator [poorReq, poorReq]).evaluators,
      0 ≤ p.2.trust_score ∧ p.2.trust_score ≤ 1000) :=
  ⟨by decide,
    (C1_trust_score_never_changes dbWithEvaluator [poorReq, poorReq]
      "https://evaluator.example").2 (by decide)⟩

/-- C1 counterexample: an excellent discrepancy recorded for a registered
evaluator at trust 500 leaves the trust_score at 500 — not at 500 + 10 as
the fixed reward table would demand. -/
theorem C1_trust_delta_cex :
    (lookupEvaluator (handleAgentDiscrepancy dbWithEvaluator excellentReq).1
        "https://evaluator.example").map (fun e => e.trust_score) = some 500 ∧
    (500 : ℤ) ≠ 500 + 10 := by decide

/-- C2 (amended): recording a discrepancy never creates an evaluator
profile: when no row exists for the request url, none exists afterwards
either (so no metrics are tracked for it), although the discrepancy row
itself is still stored whenever the request passes field validation. -/
theorem C2_no_lazy_profile_creation (db : DB) (body : PredictionDiscrepancyRequest)
    (habsent : lookupEvaluator db body.evaluator_url = none) :
    lookupEvaluator (handleAgentDiscrepancy db body).1 body.evaluator_url = none ∧
    (¬(body.evaluator_url = "" ∨ body.target_url = "") →
      (handleAgentDiscrepancy db body).1.discrepancies
        = db.discrepancies ++ [discrepancyRowOf body]) := by
  constructor
  · rw [lookupEvaluator_handleAgentDiscrepancy]
    split_ifs with h h2
    · exact habsent
    · rw [habsent]
      rfl
    · rw [habsent]
      rfl
  · intro hvalid
    unfold handleAgentDiscrepancy
    rw [if_neg hvalid]

/-- C2 witness: a fresh database receiving an excellent discrepancy for an
unknown evaluator stores the discrepancy but still has no profile row. -/
theorem C2_no_lazy_profile_creation_witness :
    lookupEvaluator (handleAgentDiscrepancy emptyDB excellentReq).1
      excellentReq.evaluator_url = none ∧
    (handleAgentDiscrepancy emptyDB excellentReq).1.discrepancies
      = [discrepancyRowOf excellentReq] := by
  have h := C2_no_lazy_profile_creation emptyDB excellentReq (by decide)
  exact ⟨h.1, by simpa using h.2 (by decide)⟩

/-- C2 counterexample: an evaluator with no profile receiving one excellent
discrepancy with error 2 ends with no profile at all — not with the claimed
trust_score 510 and total_predictions 1. -/
theorem C2_lazy_init_cex :
    (lookupEvaluator (handleAgentDiscrepancy emptyDB excellentReq).1
        "https://evaluator.example").map (fun e => (e.trust_score, e.total_predictions))
      = none ∧
    (none : Option (ℤ × ℕ)) ≠ some (510, 1) := by decide

/-- C3 (amended): recording a discrepancy appends no ReputationSnapshot:
the reputation-history table is left exactly as it was (so in particular the
handler never edits or deletes an existing snapshot — the append-only part
of the claim holds vacuously, the append part does not happen). -/
theorem C3_no_reputation_snapshot (db : DB) (body : PredictionDiscrepancyRequest) :
    (handleAgentDiscrepancy db body).1.reputation_history = db.reputation_history := by
  unfold handleAgentDiscrepancy
  split_ifs <;> rfl

/-- C3 counterexample: recording an excellent discrepancy for a registered
evaluator leaves the reputation history at length 0, not at length 1 as
"appends exactly one snapshot row" requires. -/
theorem C3_snapshot_append_cex :
    (handleAgentDiscrepancy dbWithEvaluator excellentReq).1.reputation_history.length = 0 ∧
    0 ≠ dbWithEvaluator.reputation_history.length + 1 := by decide

/-- C5 (amended): the stored accuracy_category is whatever the client sent —
the handler stores the request's accuracy_category verbatim next to its
absolute_error without validating the band relation, so stored rows may
violate the band function. -/
theorem C5_category_stored_verbatim (db : DB) (body : PredictionDiscrepancyRequest)
    (hvalid : ¬(body.evaluator_url = "" ∨ body.target_url = "")) :
    (handleAgentDiscrepancy db body).1.discrepancies
      = db.discrepancies ++ [discrepancyRowOf body] ∧
    (discrepancyRowOf body).accuracy_category = body.accuracy_category := by
  unfold handleAgentDiscrepancy
  rw [if_neg hvalid]
  exact ⟨rfl, rfl⟩

/-- C5 witness: the mismatched request is stored with its own category. -/
theorem C5_category_stored_verbatim_witness :
    (handleAgentDiscrepancy emptyDB mismatchedCategoryReq).1.discrepancies
      = [discrepancyRowOf mismatchedCategoryReq] ∧
    (discrepancyRowOf mismatchedCategoryReq).accuracy_category = "poor" := by
  have h := C5_category_stored_verbatim emptyDB mismatchedCategoryReq (by decide)
  exact ⟨by simpa using h.1, h.2⟩

/-- C5 counterexample: a reachable state (one handler call on the initial
state) contains a stored Discrepancy with absolute_error 2 — an
excellent-band error — but category "poor": the stored category is not a
function of the stored absolute_error. -/
theorem C5_category_mismatch_cex :
    ((handleAgentDiscrepancy emptyDB mismatchedCategoryReq).1.discrepancies.map
        (fun d => (d.accuracy_category, accuracyCategorySpec d.absolute_error)))
      = [("poor", "excellent")] ∧
    ("poor" : String) ≠ "excellent" := by decide

/-- C9 (amended): the prediction handler rejects a request with a falsy
required field without touching the database, but it never checks
confidence_level: a request with every required field present is stored
unconditionally, with confidence_level copied into the row unchanged. -/
theorem C9_prediction_validation (db : DB) (body : EvaluationPredictionRequest) :
    ((body.evaluator_url = "" ∨ body.target_url = "" ∨ body.predicted_score = 0 ∨
        body.predicted_grade = "") →
      handleAgentPrediction db body = (db, false)) ∧
    (¬(body.evaluator_url = "" ∨ body.target_url = "" ∨ body.predicted_score = 0 ∨
        body.predicted_grade = "") →
      (handleAgentPrediction db body).1.predictions
          = db.predictions ++ [predictionRowOf body] ∧
      (handleAgentPrediction db body).2 = true ∧
      (predictionRowOf body).confidence_level = body.confidence_level) := by
  constructor
  · intro h
    unfold handleAgentPrediction
    rw [if_pos h]
  · intro h
    unfold handleAgentPrediction
    rw [if_neg h]
    exact ⟨rfl, rfl, rfl⟩

/-- C9 witness: a missing evaluator_url is rejected with the state unchanged,
while the same body with all required fields and confidence_level 5 is
stored. -/
theorem C9_prediction_validation_witness :
    handleAgentPrediction emptyDB { outOfRangeConfidenceReq with evaluator_url := "" }
      = (emptyDB, false) ∧
    (handleAgentPrediction emptyDB outOfRangeConfidenceReq).1.predictions
      = [predictionRowOf outOfRangeConfidenceReq] := by
  have h1 := (C9_prediction_validation emptyDB
    { outOfRangeConfidenceReq with evaluator_url := "" }).1 (by decide)
  have h2 := (C9_prediction_validation emptyDB outOfRangeConfidenceReq).2 (by decide)
  exact ⟨h1, by simpa using h2.1⟩

/-- C9 counterexample: a prediction with confidence_level 5 — outside
[0,1] — is accepted, changes the stored state, and is stored with
confidence 5 uncoerced: no validation rejection occurs. -/
theorem C9_unvalidated_confidence_cex :
    (handleAgentPrediction emptyDB outOfRangeConfidenceReq).2 = true ∧
    ((handleAgentPrediction emptyDB outOfRangeConfidenceReq).1.predictions.map
        (fun p => p.confidence_level)) = [5] ∧
    ¬((5 : ℚ) ≤ 1) := by decide

end PulseRadar
